import Mathlib

/-!
Shallow embedding of the two zustand state containers of the shopping-mall
front end: the Identity Store (`src/stores/authStore.ts`) and the Admin
Store. JS strings are modelled as `List Char`; the simulated delays are
irrelevant to state and dropped; each remote HTTP call is modelled by an
`ApiOutcome` argument describing what the network returned (a thrown
error, or a parsed JSON body with its `success` flag and payload field).
Clock reads (`Date.now()`, `new Date().toISOString()`) are passed in as
explicit arguments.
-/

namespace Auth

/-- JS strings, modelled as their character sequences. -/
abbrev Str := List Char

/-- `interface User` of authStore.ts. -/
structure User where
  id : Str
  email : Str
  name : Str
  phone : Option Str
  address : Option Str
  joinDate : Str
  isEmailVerified : Bool
  isPhoneVerified : Bool
deriving DecidableEq, Repr

/-- The `verificationMethod` field: the union of the literals email, phone
and null collapses to `Option VMethod`. -/
inductive VMethod where
  | email
  | phone
deriving DecidableEq, Repr

/-- `interface VerificationState` of authStore.ts. -/
structure VerificationState where
  emailVerificationSent : Bool
  phoneVerificationSent : Bool
  emailVerified : Bool
  phoneVerified : Bool
  verificationMethod : Option VMethod
deriving DecidableEq, Repr

/-- The data fields of the Identity Store (the `AuthStore` type minus its
methods). -/
structure AuthState where
  user : Option User
  isLoggedIn : Bool
  verification : VerificationState
deriving DecidableEq, Repr

/-- The verification literal that appears in the store initializer, in
`logout` and in `resetVerification` (all four flags false, method null). -/
def initialVerification : VerificationState :=
  { emailVerificationSent := false
    phoneVerificationSent := false
    emailVerified := false
    phoneVerified := false
    verificationMethod := none }

/-- The store initializer: `user: null, isLoggedIn: false`, verification all
false/null. -/
def initialAuthState : AuthState :=
  { user := none, isLoggedIn := false, verification := initialVerification }

/-- JS `String.prototype.split` with a single-character separator: the list
of fields between occurrences of the separator (never empty; adjacent
separators yield empty fields). -/
def splitFields (sep : Char) : List Char → List (List Char)
  | [] => [[]]
  | c :: cs =>
    match splitFields sep cs with
    | [] => [[]]
    | f :: fs => if c = sep then [] :: f :: fs else (c :: f) :: fs

/-- `email.split('@')[0]`: the first field of the split. -/
def splitHead (sep : Char) (s : Str) : Str :=
  (splitFields sep s).headD []

/-- `login(email, password)` of authStore.ts. The `await`ed delay carries no
state; `nowISO` stands for `new Date().toISOString()`. Truthiness of the JS
string `email` is nonemptiness. Returns the JS boolean result paired with
the store state after the call. -/
def login (email password : Str) (nowISO : Str) (s : AuthState) : Bool × AuthState :=
  if email ≠ [] ∧ 6 ≤ password.length then
    (true,
      { s with
        user := some
          { id := ['1']
            email := email
            name := splitHead '@' email
            phone := none
            address := none
            joinDate := nowISO
            isEmailVerified := true
            isPhoneVerified := false }
        isLoggedIn := true })
  else
    (false, s)

/-- The argument record of `signup` (`{email, password, name, phone?}`). -/
structure SignupData where
  email : Str
  password : Str
  name : Str
  phone : Option Str
deriving DecidableEq, Repr

/-- Decimal string of a natural number: JS `Number.prototype.toString()` on
a nonnegative integer (`Date.now().toString()`). -/
def natToString (n : Nat) : Str :=
  if n = 0 then ['0'] else ((Nat.digits 10 n).map Nat.digitChar).reverse

/-- The `const user = {...}` record built by `signup`: id is
`Date.now().toString()` (`now` in ms), joinDate is `new Date().toISOString()`
(`nowISO`). -/
def signupUser (userData : SignupData) (now : Nat) (nowISO : Str) : User :=
  { id := natToString now
    email := userData.email
    name := userData.name
    phone := userData.phone
    address := none
    joinDate := nowISO
    isEmailVerified := false
    isPhoneVerified := false }

/-- `signup(userData)` of authStore.ts: unconditionally stores the new user,
marks the session logged in and returns true. -/
def signup (userData : SignupData) (now : Nat) (nowISO : Str) (s : AuthState) :
    Bool × AuthState :=
  (true, { s with user := some (signupUser userData now nowISO), isLoggedIn := true })

/-- `logout()` of authStore.ts. -/
def logout (s : AuthState) : AuthState :=
  { s with
    user := none
    isLoggedIn := false
    verification :=
      { emailVerificationSent := false
        phoneVerificationSent := false
        emailVerified := false
        phoneVerified := false
        verificationMethod := none } }

/-- The `partialize` option of the persist middleware: the durable subset
`{user, isLoggedIn}` of the store state. -/
def partialize (s : AuthState) : Option User × Bool :=
  (s.user, s.isLoggedIn)

/-- Modelled from the spec: the rehydration step of the persist middleware
(zustand library code, not part of this repository) merges the persisted
durable subset into the freshly-created initial state, so every field
outside the subset keeps its initial value. -/
def rehydrate (p : Option User × Bool) : AuthState :=
  { initialAuthState with user := p.1, isLoggedIn := p.2 }

end Auth

namespace Admin

/-- `interface User` of the admin store file. -/
inductive Role where
  | user
  | admin
deriving DecidableEq, Repr

structure User where
  id : String
  email : String
  name : String
  phone : Option String
  joinDate : String
  lastLoginDate : Option String
  isActive : Bool
  role : Role
deriving DecidableEq, Repr

/-- The order lifecycle statuses. -/
inductive OrderStatus where
  | pending
  | paid
  | shipping
  | delivered
  | cancelled
deriving DecidableEq, Repr

/-- One element of `Order.items`. JS numbers that hold ids/quantities/prices
are modelled as integers. -/
structure OrderItem where
  productId : Int
  productName : String
  quantity : Int
  price : Int
deriving DecidableEq, Repr

structure Order where
  id : String
  userId : String
  userName : String
  userEmail : String
  items : List OrderItem
  totalAmount : Int
  status : OrderStatus
  orderDate : String
  deliveryAddress : String
deriving DecidableEq, Repr

structure Product where
  id : Int
  name : String
  price : Int
  originalPrice : Option Int
  category : String
  stock : Int
  isActive : Bool
  createdDate : String
  sales : Int
deriving DecidableEq, Repr

structure OrdersByStatus where
  pending : Int
  paid : Int
  shipping : Int
  delivered : Int
  cancelled : Int
deriving DecidableEq, Repr

structure DashboardStats where
  totalUsers : Int
  newUsersThisMonth : Int
  totalRevenue : Int
  revenueGrowth : Int
  totalOrders : Int
  ordersByStatus : OrdersByStatus
  bestSellingProducts : List Product
  lowStockProducts : List Product
deriving DecidableEq, Repr

/-- The data fields of the `AdminStore` type. -/
structure AdminState where
  isAdminLoggedIn : Bool
  adminUser : Option User
  users : List User
  orders : List Order
  products : List Product
  dashboardStats : DashboardStats
deriving DecidableEq, Repr

/-- What one `apiCall(...)` delivered to its caller: either a thrown error
(network failure or non-2xx status, both surface as a rejection), or the
parsed JSON body, abstracted to its `success` boolean and the payload field
the caller reads (`data`, or `user` for the auth endpoint). -/
inductive ApiOutcome (α : Type) where
  | thrown
  | response (success : Bool) (payload : α)
deriving DecidableEq, Repr

/-- The store initializer of the admin store (all-zero stats, empty
collections, logged out). -/
def initialDashboardStats : DashboardStats :=
  { totalUsers := 0
    newUsersThisMonth := 0
    totalRevenue := 0
    revenueGrowth := 0
    totalOrders := 0
    ordersByStatus :=
      { pending := 0, paid := 0, shipping := 0, delivered := 0, cancelled := 0 }
    bestSellingProducts := []
    lowStockProducts := [] }

def initialAdminState : AdminState :=
  { isAdminLoggedIn := false
    adminUser := none
    users := []
    orders := []
    products := []
    dashboardStats := initialDashboardStats }

/-- `updateDashboardStats()`: GET `/api/admin/dashboard`; on a response with
`success` true replace the stats with `result.data`; otherwise (success
false, or thrown and caught) leave state unchanged. -/
def updateDashboardStats (s : AdminState) (result : ApiOutcome DashboardStats) :
    AdminState :=
  match result with
  | .thrown => s
  | .response success d => if success then { s with dashboardStats := d } else s

/-- `loadInitialData()`: four concurrent GETs joined by `Promise.all`. If any
of the four rejects, the combined await throws, the `catch` swallows it and
no state changes. Otherwise the four `result.data` payloads are written to
the four slices in one `set` call; the destructuring reads `.data` without
consulting the `success` flags of the bodies. -/
def loadInitialData (s : AdminState)
    (dashboardResult : ApiOutcome DashboardStats)
    (usersResult : ApiOutcome (List User))
    (productsResult : ApiOutcome (List Product))
    (ordersResult : ApiOutcome (List Order)) : AdminState :=
  match dashboardResult, usersResult, productsResult, ordersResult with
  | .response _ d, .response _ u, .response _ p, .response _ o =>
    { s with dashboardStats := d, users := u, products := p, orders := o }
  | _, _, _, _ => s

/-- `adminLogin(email, password)`: POST `/api/admin/auth`; on a body with
`success` true, store the admin identity (`result.user`), flip the flag,
await `loadInitialData` (whose own catch keeps it from throwing) and return
true; on `success` false return false; a thrown call is caught and yields
false. The email/password arguments only feed the request body and are
omitted. The four `ApiOutcome` arguments after the auth result feed the
inner `loadInitialData` call. -/
def adminLogin (s : AdminState) (authResult : ApiOutcome User)
    (dashboardResult : ApiOutcome DashboardStats)
    (usersResult : ApiOutcome (List User))
    (productsResult : ApiOutcome (List Product))
    (ordersResult : ApiOutcome (List Order)) : AdminState × Bool :=
  match authResult with
  | .thrown => (s, false)
  | .response success u =>
    if success then
      (loadInitialData { s with isAdminLoggedIn := true, adminUser := some u }
        dashboardResult usersResult productsResult ordersResult, true)
    else
      (s, false)

/-- `updateOrderStatus(orderId, status)`: PATCH `/api/admin/orders`; on a
body with `success` true, map over the cached orders patching the status of
those whose id matches, then invoke `updateDashboardStats()`. The payload
of the body is never read. The second component counts how many
`updateDashboardStats` calls the operation triggered. -/
def updateOrderStatus (s : AdminState) (orderId : String) (status : OrderStatus)
    (result : ApiOutcome Unit) : AdminState × Nat :=
  match result with
  | .thrown => (s, 0)
  | .response success _ =>
    if success then
      ({ s with
          orders := s.orders.map fun order =>
            if order.id = orderId then { order with status := status } else order },
        1)
    else
      (s, 0)

end Admin

namespace Auth

theorem splitFields_ne_nil (sep : Char) (l : List Char) : splitFields sep l ≠ [] := by
  cases l with
  | nil => simp [splitFields]
  | cons c cs =>
    simp only [splitFields]
    split
    · simp
    · split <;> simp

theorem splitHead_eq_takeWhile (sep : Char) (l : List Char) :
    splitHead sep l = l.takeWhile (fun c => c != sep) := by
  induction l with
  | nil => rfl
  | cons c cs ih =>
    unfold splitHead at ih ⊢
    simp only [splitFields]
    cases h : splitFields sep cs with
    | nil => exact absurd h (splitFields_ne_nil sep cs)
    | cons f fs =>
      rw [h] at ih
      simp only [List.headD] at ih
      by_cases hc : c = sep
      · subst hc
        simp [List.takeWhile]
      · have hb : (c != sep) = true := by simp [hc]
        simp [hc, List.takeWhile, hb, ih]

theorem digitChar_inj {a b : Nat} (ha : a < 10) (hb : b < 10)
    (h : Nat.digitChar a = Nat.digitChar b) : a = b := by
  have key : ∀ x y : Fin 10, Nat.digitChar x.val = Nat.digitChar y.val → x = y := by decide
  exact congrArg Fin.val (key ⟨a, ha⟩ ⟨b, hb⟩ h)

theorem map_digitChar_inj : ∀ {l1 l2 : List Nat},
    (∀ x ∈ l1, x < 10) → (∀ x ∈ l2, x < 10) →
    l1.map Nat.digitChar = l2.map Nat.digitChar → l1 = l2 := by
  intro l1
  induction l1 with
  | nil =>
    intro l2 _ _ h
    cases l2 with
    | nil => rfl
    | cons b t2 => simp at h
  | cons a t ih =>
    intro l2 h1 h2 h
    cases l2 with
    | nil => simp at h
    | cons b t2 =>
      simp only [List.map_cons, List.cons.injEq] at h
      have hab : a = b := digitChar_inj (h1 a (by simp)) (h2 b (by simp)) h.1
      have ht : t = t2 :=
        ih (fun x hx => h1 x (by simp [hx])) (fun x hx => h2 x (by simp [hx])) h.2
      simp [hab, ht]

theorem natToString_nonzero_ne {b : Nat} (hb : b ≠ 0) :
    ((Nat.digits 10 b).map Nat.digitChar).reverse ≠ ['0'] := by
  intro h
  have hlen : (Nat.digits 10 b).length = 1 := by
    have := congrArg List.length h
    simpa using this
  obtain ⟨d, hd⟩ := List.length_eq_one.mp hlen
  rw [hd] at h
  simp only [List.map_cons, List.map_nil, List.reverse_cons, List.reverse_nil,
    List.nil_append, List.cons.injEq] at h
  have hdlt : d < 10 := Nat.digits_lt_base (by norm_num) (by rw [hd]; simp)
  have hd0 : d = 0 := digitChar_inj hdlt (by norm_num) (by simpa using h.1)
  have hb0 : b = 0 := by
    have hofd := (Nat.ofDigits_digits 10 b).symm
    rw [hd, hd0] at hofd
    simpa [Nat.ofDigits_cons, Nat.ofDigits_nil] using hofd
  exact hb hb0

theorem natToString_inj {a b : Nat} (h : natToString a = natToString b) : a = b := by
  unfold natToString at h
  by_cases ha : a = 0 <;> by_cases hb : b = 0
  · omega
  · rw [if_pos ha, if_neg hb] at h
    exact absurd h.symm (natToString_nonzero_ne hb)
  · rw [if_neg ha, if_pos hb] at h
    exact absurd h (natToString_nonzero_ne ha)
  · rw [if_neg ha, if_neg hb] at h
    have hmap := List.reverse_injective h
    have hdig := map_digitChar_inj
      (fun x hx => Nat.digits_lt_base (by norm_num) hx)
      (fun x hx => Nat.digits_lt_base (by norm_num) hx) hmap
    exact Nat.digits_inj_iff.mp hdig

end Auth

/-- C3: for every nonempty email and every password of length at least 6,
login returns true, marks the session logged in, and stores a user whose
name is the part of the email before the first at-sign, with the fixed id,
email verified and phone unverified. -/
theorem login_valid_credentials (email password nowISO : Auth.Str) (s : Auth.AuthState)
    (he : email ≠ []) (hp : 6 ≤ password.length) :
    (Auth.login email password nowISO s).1 = true ∧
    (Auth.login email password nowISO s).2.isLoggedIn = true ∧
    (Auth.login email password nowISO s).2.user = some
      { id := ['1']
        email := email
        name := email.takeWhile (fun c => c != '@')
        phone := none
        address := none
        joinDate := nowISO
        isEmailVerified := true
        isPhoneVerified := false } := by
  have hcond : email ≠ [] ∧ 6 ≤ password.length := ⟨he, hp⟩
  unfold Auth.login
  rw [if_pos hcond]
  refine ⟨rfl, rfl, ?_⟩
  rw [Auth.splitHead_eq_takeWhile]

/-- Witness for C3 at a concrete email and password. -/
theorem login_valid_credentials_witness :
    (['a', 'b', '@', 'c'] : Auth.Str) ≠ [] ∧
    6 ≤ (['s', 'e', 'c', 'r', 'e', 't'] : Auth.Str).length ∧
    ((Auth.login ['a', 'b', '@', 'c'] ['s', 'e', 'c', 'r', 'e', 't'] []
        Auth.initialAuthState).1 = true ∧
      (Auth.login ['a', 'b', '@', 'c'] ['s', 'e', 'c', 'r', 'e', 't'] []
        Auth.initialAuthState).2.isLoggedIn = true ∧
      (Auth.login ['a', 'b', '@', 'c'] ['s', 'e', 'c', 'r', 'e', 't'] []
        Auth.initialAuthState).2.user = some
        { id := ['1']
          email := ['a', 'b', '@', 'c']
          name := (['a', 'b', '@', 'c'] : Auth.Str).takeWhile (fun c => c != '@')
          phone := none
          address := none
          joinDate := []
          isEmailVerified := true
          isPhoneVerified := false }) :=
  ⟨by decide, by decide,
    login_valid_credentials ['a', 'b', '@', 'c'] ['s', 'e', 'c', 'r', 'e', 't'] []
      Auth.initialAuthState (by decide) (by decide)⟩

/-- C4: for every password shorter than 6 or empty email, login returns
false and leaves the whole store state unchanged. -/
theorem login_invalid_credentials_noop (email password nowISO : Auth.Str)
    (s : Auth.AuthState) (h : password.length < 6 ∨ email = []) :
    Auth.login email password nowISO s = (false, s) := by
  unfold Auth.login
  rw [if_neg]
  rintro ⟨he, hp⟩
  rcases h with h | h
  · omega
  · exact he h

/-- Witness for C4 at a concrete short password. -/
theorem login_invalid_credentials_noop_witness :
    ((['a', 'b'] : Auth.Str).length < 6 ∨ (['x'] : Auth.Str) = []) ∧
    Auth.login ['x'] ['a', 'b'] [] Auth.initialAuthState = (false, Auth.initialAuthState) :=
  ⟨Or.inl (by decide),
    login_invalid_credentials_noop ['x'] ['a', 'b'] [] Auth.initialAuthState
      (Or.inl (by decide))⟩

/-- C2 counterexample: two distinct signup calls landing on the same
millisecond (`Date.now()` returns 42 both times) produce the same user id,
so ids are not unique across repeated calls in general. -/
theorem signup_same_millisecond_id_collision :
    ({ email := ['a'], password := ['p', 'w', '1', '2', '3', '4'], name := ['A'],
        phone := none } : Auth.SignupData) ≠
      { email := ['b'], password := ['p', 'w', '1', '2', '3', '4'], name := ['B'],
        phone := none } ∧
    (Auth.signup
        { email := ['a'], password := ['p', 'w', '1', '2', '3', '4'], name := ['A'],
          phone := none } 42 [] Auth.initialAuthState).2.user.map Auth.User.id =
      (Auth.signup
        { email := ['b'], password := ['p', 'w', '1', '2', '3', '4'], name := ['B'],
          phone := none } 42 [] Auth.initialAuthState).2.user.map Auth.User.id :=
  ⟨by decide, rfl⟩

/-- C2 amended: signup always returns true, and two signup calls that
observe distinct `Date.now()` values produce distinct user ids (the id is
the decimal clock reading, unique only while the clock values differ). -/
theorem signup_true_and_distinct_times_distinct_ids
    (ud1 ud2 : Auth.SignupData) (now1 now2 : Nat) (iso1 iso2 : Auth.Str)
    (s1 s2 : Auth.AuthState) (h : now1 ≠ now2) :
    (Auth.signup ud1 now1 iso1 s1).1 = true ∧
    (Auth.signup ud1 now1 iso1 s1).2.user.map Auth.User.id ≠
      (Auth.signup ud2 now2 iso2 s2).2.user.map Auth.User.id := by
  refine ⟨rfl, ?_⟩
  intro hid
  simp only [Auth.signup, Auth.signupUser, Option.map_some] at hid
  exact h (Auth.natToString_inj (Option.some.inj hid))

/-- Witness for the amended C2 at clock values 3 and 5. -/
theorem signup_true_and_distinct_times_distinct_ids_witness :
    (3 : Nat) ≠ 5 ∧
    ((Auth.signup
        { email := ['a'], password := ['p', 'w', '1', '2', '3', '4'], name := ['A'],
          phone := none } 3 [] Auth.initialAuthState).1 = true ∧
      (Auth.signup
        { email := ['a'], password := ['p', 'w', '1', '2', '3', '4'], name := ['A'],
          phone := none } 3 [] Auth.initialAuthState).2.user.map Auth.User.id ≠
        (Auth.signup
          { email := ['a'], password := ['p', 'w', '1', '2', '3', '4'], name := ['A'],
            phone := none } 5 [] Auth.initialAuthState).2.user.map Auth.User.id) :=
  ⟨by decide,
    signup_true_and_distinct_times_distinct_ids _ _ 3 5 [] [] Auth.initialAuthState
      Auth.initialAuthState (by decide)⟩

/-- C7: rehydrating the persisted durable subset restores the same user and
isLoggedIn pair, while the verification sub-record is not restored and
equals the initial all-false/null record. -/
theorem persist_reload_roundtrip (s : Auth.AuthState) :
    (Auth.rehydrate (Auth.partialize s)).user = s.user ∧
    (Auth.rehydrate (Auth.partialize s)).isLoggedIn = s.isLoggedIn ∧
    (Auth.rehydrate (Auth.partialize s)).verification = Auth.initialVerification :=
  ⟨rfl, rfl, rfl⟩

/-- C8: logout is idempotent, and after any logout the user is null, the
session is logged out and the verification sub-record is the initial
all-false/null record. -/
theorem logout_idempotent_and_clears (s : Auth.AuthState) :
    Auth.logout (Auth.logout s) = Auth.logout s ∧
    (Auth.logout s).user = none ∧
    (Auth.logout s).isLoggedIn = false ∧
    (Auth.logout s).verification = Auth.initialVerification :=
  ⟨rfl, rfl, rfl, rfl⟩

/-- C9: for every input and every starting state, login and signup leave
the verification sub-record unchanged, whether they succeed or fail. -/
theorem login_signup_preserve_verification (email password nowISO : Auth.Str)
    (ud : Auth.SignupData) (now : Nat) (s : Auth.AuthState) :
    (Auth.login email password nowISO s).2.verification = s.verification ∧
    (Auth.signup ud now nowISO s).2.verification = s.verification := by
  constructor
  · unfold Auth.login
    split <;> rfl
  · rfl

/-- C1 counterexample: a dashboard response with success false (and a data
payload) still overwrites the dashboardStats slice in loadInitialData, so
the payload is applied even though success is not true. -/
theorem loadInitialData_success_false_updates_slice :
    (Admin.loadInitialData Admin.initialAdminState
        (.response false { Admin.initialDashboardStats with totalUsers := 1 })
        (.response true []) (.response true []) (.response true [])).dashboardStats ≠
      Admin.initialAdminState.dashboardStats ∧
    (Admin.loadInitialData Admin.initialAdminState
        (.response false { Admin.initialDashboardStats with totalUsers := 1 })
        (.response true []) (.response true []) (.response true [])).dashboardStats =
      { Admin.initialDashboardStats with totalUsers := 1 } :=
  ⟨by decide, rfl⟩

/-- C1 amended: loadInitialData never consults the success flags: when none
of the four requests throws, all four payloads are applied to the four
slices, whatever the success values of the bodies; only a thrown request
(handled in C5) prevents the update. -/
theorem loadInitialData_applies_payloads_unconditionally
    (s : Admin.AdminState) (b1 b2 b3 b4 : Bool) (d : Admin.DashboardStats)
    (u : List Admin.User) (p : List Admin.Product) (o : List Admin.Order) :
    Admin.loadInitialData s (.response b1 d) (.response b2 u) (.response b3 p)
        (.response b4 o) =
      { s with dashboardStats := d, users := u, products := p, orders := o } :=
  rfl

/-- C5: if any of the four concurrent requests of loadInitialData throws,
no state slice is updated, even when the other three returned responses. -/
theorem loadInitialData_all_or_nothing (s : Admin.AdminState)
    (o1 : Admin.ApiOutcome Admin.DashboardStats)
    (o2 : Admin.ApiOutcome (List Admin.User))
    (o3 : Admin.ApiOutcome (List Admin.Product))
    (o4 : Admin.ApiOutcome (List Admin.Order))
    (h : o1 = .thrown ∨ o2 = .thrown ∨ o3 = .thrown ∨ o4 = .thrown) :
    Admin.loadInitialData s o1 o2 o3 o4 = s := by
  cases o1 <;> cases o2 <;> cases o3 <;> cases o4 <;> first | rfl | simp_all

/-- Witness for C5: the products fetch throws while the other three succeed
with nonempty payloads, and the state is unchanged. -/
theorem loadInitialData_all_or_nothing_witness :
    ((Admin.ApiOutcome.thrown : Admin.ApiOutcome (List Admin.Product)) = .thrown ∨
        False) ∧
    Admin.loadInitialData Admin.initialAdminState
        (.response true { Admin.initialDashboardStats with totalUsers := 7 })
        (.response true []) .thrown (.response true []) =
      Admin.initialAdminState :=
  ⟨Or.inl rfl,
    loadInitialData_all_or_nothing Admin.initialAdminState
      (.response true { Admin.initialDashboardStats with totalUsers := 7 })
      (.response true []) .thrown (.response true [])
      (Or.inr (Or.inr (Or.inl rfl)))⟩

/-- C6: when the remote call reports success, updateOrderStatus changes
exactly the status field of the orders whose id matches, leaves every other
order and every other state slice unchanged, and triggers exactly one
updateDashboardStats call. -/
theorem updateOrderStatus_success_frame (s : Admin.AdminState) (orderId : String)
    (st : Admin.OrderStatus) :
    (Admin.updateOrderStatus s orderId st (.response true ())).2 = 1 ∧
    (∀ i : Nat,
      (Admin.updateOrderStatus s orderId st (.response true ())).1.orders[i]? =
        (s.orders[i]?).map fun o =>
          if o.id = orderId then { o with status := st } else o) ∧
    (Admin.updateOrderStatus s orderId st (.response true ())).1.users = s.users ∧
    (Admin.updateOrderStatus s orderId st (.response true ())).1.products =
      s.products ∧
    (Admin.updateOrderStatus s orderId st (.response true ())).1.dashboardStats =
      s.dashboardStats ∧
    (Admin.updateOrderStatus s orderId st (.response true ())).1.isAdminLoggedIn =
      s.isAdminLoggedIn ∧
    (Admin.updateOrderStatus s orderId st (.response true ())).1.adminUser =
      s.adminUser := by
  refine ⟨rfl, ?_, rfl, rfl, rfl, rfl, rfl⟩
  intro i
  simp [Admin.updateOrderStatus, List.getElem?_map]

/-- C10: whenever the auth endpoint responds with success true, adminLogin
returns true, whatever the four requests of the inner loadInitialData call
do - including all four throwing - because loadInitialData swallows its
own errors. -/
theorem adminLogin_true_despite_load_failures (s : Admin.AdminState)
    (u : Admin.User) (d : Admin.ApiOutcome Admin.DashboardStats)
    (us : Admin.ApiOutcome (List Admin.User))
    (p : Admin.ApiOutcome (List Admin.Product))
    (o : Admin.ApiOutcome (List Admin.Order)) :
    (Admin.adminLogin s (.response true u) d us p o).2 = true := by
  simp [Admin.adminLogin]
